import Mathlib

/-!
Verification of the incremental weather-ETL core (`weather_etl.py`):
row normalization (`prepare_data`), deduplication against existing
timestamps, the fetch retry loop (`fetch_weather_data`), the batched
sheet writer (`upload_to_sheets`) and the run orchestration with its
persisted run state (`load_state` / `save_state` / `run`).

The embedding is shallow: JSON numbers are `Int`, timestamps are
`String`, a value that may be `null` or out of range in a provider
array is `Option Int`, and the external world (HTTP outcomes, the
spreadsheet contents, write faults) is passed explicitly.
-/

namespace WeatherETL

/-- One hourly section of a provider response: parallel arrays keyed by
field name.  A field array may be shorter than `time` and may contain
nulls; a missing array is the empty list (`hourly.get(..., [])`). -/
structure Hourly where
  time : List String
  temperature_2m : List (Option Int)
  relative_humidity_2m : List (Option Int)
  visibility : List (Option Int)
  weathercode : List (Option Int)
  precipitation : List (Option Int)
deriving DecidableEq, Repr

/-- A normalized observation row, in the fixed column order
`Time, Temperature_2m, Humidity_2m, Visibility, WeatherCode,
Precipitation, Fetched_At`. -/
structure Row where
  timestamp : String
  temperature_2m : Int
  relative_humidity_2m : Int
  visibility : Int
  weathercode : Int
  precipitation : Int
  fetched_at : String
deriving DecidableEq, Repr

/-- A response body with no data rows at all. -/
def emptyHourly : Hourly :=
  { time := [], temperature_2m := [], relative_humidity_2m := []
    visibility := [], weathercode := [], precipitation := [] }

/-- A minimal body whose time array has one entry and every other
array is empty. -/
def oneHourly : Hourly :=
  { time := ["a"], temperature_2m := [], relative_humidity_2m := []
    visibility := [], weathercode := [], precipitation := [] }

/-- Safe indexing into a provider array:
`arr[i] if i < len(arr) else None`, where an in-range cell may itself
be null. -/
def getOpt (l : List (Option Int)) (i : Nat) : Option Int :=
  (l.get? i).getD none

/-- The body of the `prepare_data` loop at index `i`: the duplicate
skip (`timestamp in existing_timestamps`), the incomplete-data skip
(`temp is None or humid is None`), and the defaults for the optional
fields.  Returns `none` when the index contributes no row. -/
def rowAt (h : Hourly) (existing : List String) (now : String) (i : Nat) : Option Row :=
  if (h.time.get? i).getD "" ∈ existing then
    none
  else
    match getOpt h.temperature_2m i, getOpt h.relative_humidity_2m i with
    | some temp, some humid =>
        some { timestamp := (h.time.get? i).getD ""
               temperature_2m := temp
               relative_humidity_2m := humid
               visibility := (getOpt h.visibility i).getD 24000
               weathercode := (getOpt h.weathercode i).getD 0
               precipitation := (getOpt h.precipitation i).getD 0
               fetched_at := now }
    | _, _ => none

/-- `prepare_data`: walks `range(len(times))`, collecting the rows the
loop body keeps; an empty time array raises (`ValueError`) and the
surrounding handler returns `None`. -/
def prepare_data (h : Hourly) (existing : List String) (now : String) :
    Option (List Row) :=
  if h.time = [] then none
  else some ((List.range h.time.length).filterMap (rowAt h existing now))

/-- The deduplication filter of the spec's §4.3, as implemented by the
`timestamp in existing_timestamps: continue` step of `prepare_data`,
lifted to a sequence of normalized observations. -/
def dedup (rows : List Row) (existing : List String) : List Row :=
  rows.filter (fun r => decide (r.timestamp ∉ existing))

/-! ## Fetch with retry (`fetch_weather_data`, lines 97-146) -/

/-- The body of a provider response: the hourly section may be missing
(`"hourly" not in data`). -/
structure Resp where
  hourly : Option Hourly
deriving DecidableEq, Repr

/-- What one HTTP attempt produces before the ETL inspects it: a
transport failure (timeout / connection error), or a response carrying
an HTTP status code and a JSON body. -/
inductive HttpOutcome where
  | timeout
  | connError
  | response (code : Nat) (body : Resp)
deriving DecidableEq, Repr

/-- What the `try` body does with one attempt's outcome:
`raise_for_status()` turns a 4xx or 5xx status into a
`requests.exceptions.RequestException` (`reqErr`); a body without a
non-empty hourly time series raises
`ValueError("Invalid API response structure")` (`valErr`); otherwise
the data is returned. -/
inductive AttemptRes where
  | reqErr
  | valErr
  | success (h : Hourly)
deriving DecidableEq, Repr

def classify : HttpOutcome → AttemptRes
  | .timeout => .reqErr
  | .connError => .reqErr
  | .response code body =>
      if 400 ≤ code ∧ code < 600 then .reqErr
      else
        match body.hourly with
        | none => .valErr
        | some h => if h.time = [] then .valErr else .success h

/-- The retry loop `for attempt in range(max_retries)` with
`max_retries = 3`.  `attempt` is the current 0-based attempt index,
`rem` the iterations the loop still has, `sleeps` the backoff sleeps
(`time.sleep(2 ** attempt)`) performed so far.  A `RequestException`
retries unless the loop is on its last iteration; a `ValueError`
returns `None` at once.  Returns the data (if any), the number of
attempts made, and the list of sleeps. -/
def fetchGo (outcome : Nat → HttpOutcome) :
    Nat → Nat → List Nat → Option Hourly × Nat × List Nat
  | attempt, 0, sleeps => (none, attempt, sleeps)
  | attempt, rem + 1, sleeps =>
      match classify (outcome attempt) with
      | .success h => (some h, attempt + 1, sleeps)
      | .valErr => (none, attempt + 1, sleeps)
      | .reqErr =>
          if rem = 0 then (none, attempt + 1, sleeps)
          else fetchGo outcome (attempt + 1) rem (sleeps ++ [2 ^ attempt])

def fetch_weather_data (outcome : Nat → HttpOutcome) :
    Option Hourly × Nat × List Nat :=
  fetchGo outcome 0 3 []

/-! ## Fetch-window selection (lines 108-120, 255-270, 288-306) -/

/-- The ephemeral fetch window: a historical `{start_date, end_date}`
range or a forward-looking forecast horizon in days.  Dates are day
numbers. -/
inductive FetchWindow where
  | historical (start_date end_date : Int)
  | forecast (days : Nat)
deriving DecidableEq, Repr

/-- `fetch_weather_data` picks the archive endpoint exactly when both
`start_date` and `end_date` are supplied, the forecast endpoint
otherwise. -/
def endpointFor : FetchWindow → String
  | .historical _ _ => "https://archive-api.open-meteo.com/v1/archive"
  | .forecast _ => "https://api.open-meteo.com/v1/forecast"

/-- The window `run_initial_load` requests:
`end_date = today - timedelta(days=1)`,
`start_date = end_date - timedelta(days=6)`. -/
def run_initial_load_window (today : Int) : FetchWindow :=
  let end_date := today - 1
  let start_date := end_date - 6
  .historical start_date end_date

/-- The window `run_incremental_update` requests:
`fetch_weather_data(forecast_days=2)`. -/
def run_incremental_window : FetchWindow :=
  .forecast 2

/-! ## Run state (`load_state` / `save_state`, lines 32-56) -/

structure RunState where
  last_run : Option String
  first_run : Bool
deriving DecidableEq, Repr

/-- The on-disk state file: absent, unreadable/corrupt, or a valid
record. -/
inductive StateFile where
  | absent
  | corrupt
  | good (s : RunState)
deriving DecidableEq, Repr

def defaultState : RunState :=
  { last_run := none, first_run := true }

/-- `load_state`: a valid file is read back; an absent or unreadable
file falls back to the first-run default (corruption is logged, never
fatal). -/
def load_state : StateFile → RunState
  | .good s => s
  | .absent => defaultState
  | .corrupt => defaultState

/-- `save_state` as the orchestrator's environment models it: the
write either replaces the file or raises, and the exception is caught
and logged, never propagated.  The Boolean covers the failure mode in
which the file is left as it was — the `open` call itself raising,
before anything is written.  The full on-disk semantics of the write,
including the truncation a successful `open(..., 'w')` performs before
a failing `json.dump`, is `save_state_disk` below. -/
def save_state (writeOk : Bool) (file : StateFile) (s : RunState) : StateFile :=
  if writeOk then .good s else file

/-- The three ways the `save_state` body
(`with open(self.state_file, 'w') as f: json.dump(state, f)`) can go:
the dump completes; `open` itself raises, before the file is touched;
or `open` succeeds — truncating the file at once — and the
dump/flush then raises.  In every case the `except` swallows the
error. -/
inductive WriteAttempt where
  | completes
  | openRaises
  | dumpRaises
deriving DecidableEq, Repr

/-- The state file after a `save_state` attempt, on disk: a completed
dump stores the new record; a failed `open` leaves the previous file;
a dump that fails after `open` truncated leaves an unreadable file. -/
def save_state_disk (w : WriteAttempt) (file : StateFile) (s : RunState) : StateFile :=
  match w with
  | .completes => .good s
  | .openRaises => file
  | .dumpRaises => .corrupt

/-- The run mode `run` selects from the loaded state
(`state.get("first_run", True)`): first run requests the historical
window, later runs the forecast window. -/
def requestWindow (state : RunState) (today : Int) : FetchWindow :=
  if state.first_run then run_initial_load_window today
  else run_incremental_window

/-! ## Sheet access (`get_existing_timestamps`, lines 58-77;
`upload_to_sheets`, lines 217-253) -/

/-- The destination table: an ordered list of rows of string cells. -/
abbrev Sheet := List (List String)

/-- `get_existing_timestamps`: reads all values; an empty table yields
the empty set; otherwise the non-empty first cells of the rows after
the header are collected.  Any exception from the read is caught and
the empty set returned (`readFault = true` models that handler). -/
def get_existing_timestamps (sheet : Sheet) (readFault : Bool) : List String :=
  if readFault then []
  else
    match sheet with
    | [] => []
    | _ :: rest =>
        rest.filterMap (fun row =>
          match row.head? with
          | some t => if t = "" then none else some t
          | none => none)

/-- The fixed header row. -/
def headers : List String :=
  ["Time", "Temperature_2m", "Humidity_2m",
   "Visibility", "WeatherCode", "Precipitation", "Fetched_At"]

/-- A normalized row as the cells appended to the sheet. -/
def rowCells (r : Row) : List String :=
  [r.timestamp, toString r.temperature_2m, toString r.relative_humidity_2m,
   toString r.visibility, toString r.weathercode, toString r.precipitation,
   r.fetched_at]

/-- `self.sheet.row_count == 0 or len(self.sheet.row_values(1)) == 0`:
the table is empty or its first row has no values. -/
def headerNeeded (sheet : Sheet) : Bool :=
  match sheet with
  | [] => true
  | first :: _ => first.isEmpty

/-- `for i in range(0, len(rows), batch_size): batch = rows[i:i+batch_size]`,
fuelled by the row count (each step consumes at least one row, so
`l.length` steps always suffice). -/
def chunksGo (n : Nat) : Nat → List Row → List (List Row)
  | 0, _ => []
  | _, [] => []
  | fuel + 1, l => l.take n :: chunksGo n fuel (l.drop n)

def chunksOf (n : Nat) (l : List Row) : List (List Row) :=
  chunksGo n l.length l

/-- The batch-append loop.  `fault = some k` models the `k`-th
`append_rows` call raising (0-based); the surrounding `except` then
returns `False`, with the batches already appended left in the table. -/
def appendLoop (batches : List (List Row)) (fault : Option Nat) (sheet : Sheet) :
    Bool × Sheet :=
  match batches, fault with
  | [], _ => (true, sheet)
  | _ :: _, some 0 => (false, sheet)
  | b :: bs, some (k + 1) => appendLoop bs (some k) (sheet ++ b.map rowCells)
  | b :: bs, none => appendLoop bs none (sheet ++ b.map rowCells)

/-- `upload_to_sheets`: an empty row list returns `True` at once with
no write; otherwise the header row is appended first when the table is
empty, then the rows are appended in batches of 100; any raise makes
the whole call return `False`. -/
def upload_to_sheets (rows : List Row) (sheet : Sheet) (fault : Option Nat) :
    Bool × Sheet :=
  if rows = [] then (true, sheet)
  else
    let sheet1 := if headerNeeded sheet then sheet ++ [headers] else sheet
    appendLoop (chunksOf 100 rows) fault sheet1

/-! ## Orchestration (`run_initial_load`, `run_incremental_update`,
`run`, lines 255-344) -/

/-- The external world one invocation runs against: the persisted
state file, the destination table, whether the sheets connection
succeeds, the fetch outcome (already through the retry loop: `none`
models `fetch_weather_data` returning `None`), whether the
existing-timestamp read raises, which batch append raises (if any),
whether the state-file write raises, and the wall clock. -/
structure Env where
  stateFile : StateFile
  sheet : Sheet
  setupOk : Bool
  fetchResult : Option Hourly
  readFault : Bool
  uploadFault : Option Nat
  saveFault : Bool
  now : String
deriving Repr

/-- `run_initial_load` (lines 255-286): fetch the historical window;
on `None` fail; read existing timestamps; prepare rows; `if not rows`
(both `None` and `[]`) succeed without uploading; else upload. -/
def run_initial_load (env : Env) : Bool × Sheet :=
  match env.fetchResult with
  | none => (false, env.sheet)
  | some data =>
      let existing := get_existing_timestamps env.sheet env.readFault
      match prepare_data data existing env.now with
      | none => (true, env.sheet)
      | some [] => (true, env.sheet)
      | some rows => upload_to_sheets rows env.sheet env.uploadFault

/-- `run_incremental_update` (lines 288-306): fetch the forecast
window; on `None` fail; prepare rows and hand them (possibly `None`)
to `upload_to_sheets`, whose `if not rows` returns `True`. -/
def run_incremental_update (env : Env) : Bool × Sheet :=
  match env.fetchResult with
  | none => (false, env.sheet)
  | some data =>
      let existing := get_existing_timestamps env.sheet env.readFault
      match prepare_data data existing env.now with
      | none => (true, env.sheet)
      | some rows => upload_to_sheets rows env.sheet env.uploadFault

/-- `run` (lines 308-344): load state, connect, pick the mode from
`first_run`, and on success save the updated state.  Returns the
reported success, the persisted state file after the run, and the
table after the run. -/
def run (env : Env) : Bool × StateFile × Sheet :=
  let state := load_state env.stateFile
  if env.setupOk = false then (false, env.stateFile, env.sheet)
  else if state.first_run = true then
    let r := run_initial_load env
    if r.1 = true then
      (true, save_state (!env.saveFault) env.stateFile
        { last_run := some env.now, first_run := false }, r.2)
    else (false, env.stateFile, r.2)
  else
    let r := run_incremental_update env
    if r.1 = true then
      (true, save_state (!env.saveFault) env.stateFile
        { state with last_run := some env.now }, r.2)
    else (false, env.stateFile, r.2)

/-- The mode-selected step's reported success. -/
def runBody (env : Env) : Bool :=
  if (load_state env.stateFile).first_run = true then (run_initial_load env).1
  else (run_incremental_update env).1

/-- The mode-selected step's resulting table. -/
def runSheet (env : Env) : Sheet :=
  if (load_state env.stateFile).first_run = true then (run_initial_load env).2
  else (run_incremental_update env).2

/-! ## Helper lemmas -/

/-- Characterization of a kept row: the timestamp is new and both
critical fields are present; all optional fields are defaulted. -/
lemma rowAt_eq_some {h : Hourly} {E : List String} {now : String} {i : Nat} {r : Row} :
    rowAt h E now i = some r ↔
      (h.time.get? i).getD "" ∉ E
      ∧ ∃ t hu, getOpt h.temperature_2m i = some t
        ∧ getOpt h.relative_humidity_2m i = some hu
        ∧ r = { timestamp := (h.time.get? i).getD ""
                temperature_2m := t
                relative_humidity_2m := hu
                visibility := (getOpt h.visibility i).getD 24000
                weathercode := (getOpt h.weathercode i).getD 0
                precipitation := (getOpt h.precipitation i).getD 0
                fetched_at := now } := by
  unfold rowAt
  by_cases hmem : (h.time.get? i).getD "" ∈ E
  · rw [if_pos hmem]
    constructor
    · intro hr; exact absurd hr (by simp)
    · rintro ⟨hc, -⟩; exact absurd hmem hc
  · rcases ht : getOpt h.temperature_2m i with _ | t
    · simp [hmem, ht]
    · rcases hh : getOpt h.relative_humidity_2m i with _ | hu
      · simp [hmem, ht, hh]
      · simp only [if_neg hmem, ht, hh]
        constructor
        · intro hr
          exact ⟨hmem, t, hu, rfl, rfl, (Option.some_inj.mp hr).symm⟩
        · rintro ⟨-, t', hu', ht', hh', hr⟩
          injection ht' with h1
          injection hh' with h2
          subst h1
          subst h2
          rw [hr]

lemma rowAt_eq_none_of_absent {h : Hourly} {E : List String} {now : String} {i : Nat}
    (habs : getOpt h.temperature_2m i = none ∨ getOpt h.relative_humidity_2m i = none) :
    rowAt h E now i = none := by
  rcases hr : rowAt h E now i with _ | r
  · rfl
  · obtain ⟨-, t, hu, ht, hh, -⟩ := rowAt_eq_some.mp hr
    rcases habs with habs | habs
    · rw [habs] at ht; exact absurd ht (by simp)
    · rw [habs] at hh; exact absurd hh (by simp)

lemma prepare_data_eq {h : Hourly} {E : List String} {now : String} (hne : h.time ≠ []) :
    prepare_data h E now =
      some ((List.range h.time.length).filterMap (rowAt h E now)) := by
  unfold prepare_data
  rw [if_neg hne]

/-- The timestamp of a kept row is the time entry of its index. -/
lemma rowAt_timestamp {h : Hourly} {E : List String} {now : String} {i : Nat} {r : Row}
    (hr : rowAt h E now i = some r) : r.timestamp = (h.time.get? i).getD "" := by
  obtain ⟨-, t, hu, -, -, hreq⟩ := rowAt_eq_some.mp hr
  rw [hreq]

/-- The in-loop duplicate skip of `prepare_data` is exactly the `dedup`
filter applied to the normalization computed with no existing
timestamps. -/
lemma filterMap_rowAt_dedup (h : Hourly) (E : List String) (now : String)
    (l : List Nat) :
    l.filterMap (rowAt h E now) = dedup (l.filterMap (rowAt h [] now)) E := by
  induction l with
  | nil => rfl
  | cons i is ih =>
    simp only [List.filterMap_cons]
    by_cases hmem : (h.time.get? i).getD "" ∈ E
    · have hE : rowAt h E now i = none := by
        unfold rowAt
        rw [if_pos hmem]
      rw [hE]
      rcases h0 : rowAt h [] now i with _ | r
      · exact ih
      · have hts : r.timestamp = (h.time.get? i).getD "" := rowAt_timestamp h0
        show is.filterMap (rowAt h E now)
          = dedup (r :: is.filterMap (rowAt h [] now)) E
        unfold dedup
        rw [List.filter_cons]
        have hdec : decide (r.timestamp ∉ E) = false := by
          rw [hts]
          simp only [decide_eq_false_iff_not, Decidable.not_not]
          exact hmem
        rw [hdec]
        simp only [if_false, Bool.false_eq_true]
        exact ih
    · have hEq : rowAt h E now i = rowAt h [] now i := by
        unfold rowAt
        rw [if_neg hmem, if_neg (List.not_mem_nil _)]
      rw [hEq]
      rcases h0 : rowAt h [] now i with _ | r
      · exact ih
      · have hts : r.timestamp = (h.time.get? i).getD "" := rowAt_timestamp h0
        show r :: is.filterMap (rowAt h E now)
          = dedup (r :: is.filterMap (rowAt h [] now)) E
        unfold dedup
        rw [List.filter_cons]
        have hdec : decide (r.timestamp ∉ E) = true := by
          rw [hts]
          simp only [decide_eq_true_eq]
          exact hmem
        rw [hdec]
        simp only [if_true]
        rw [ih]
        rfl

/-- `prepare_data` against an existing-timestamp set is `dedup` of
`prepare_data` against the empty set. -/
lemma prepare_data_dedup (h : Hourly) (E : List String) (now : String)
    (hne : h.time ≠ []) :
    prepare_data h E now =
      some (dedup ((List.range h.time.length).filterMap (rowAt h [] now)) E) := by
  rw [prepare_data_eq hne, filterMap_rowAt_dedup]

/-! ## Claims -/

/-- C1: the deduplication filter is idempotent
(`dedup (dedup R E) E = dedup R E`), filtering against `E` enlarged by
the surviving timestamps leaves nothing, the filter is
order-preserving (its output is a sublist of its input), and it keeps
exactly the rows whose timestamp is not in `E`. -/
theorem c1_dedup_idempotent (R : List Row) (E : List String) :
    dedup (dedup R E) E = dedup R E
    ∧ dedup R (E ++ (dedup R E).map Row.timestamp) = []
    ∧ (dedup R E).Sublist R
    ∧ (∀ r, r ∈ dedup R E ↔ r ∈ R ∧ r.timestamp ∉ E) := by
  refine ⟨?_, ?_, ?_, ?_⟩
  · unfold dedup
    apply List.filter_eq_self.mpr
    intro r hr
    exact (List.mem_filter.mp hr).2
  · unfold dedup
    apply List.filter_eq_nil_iff.mpr
    intro r hr
    simp only [decide_eq_true_eq, not_not]
    by_cases hmem : r.timestamp ∈ E
    · exact List.mem_append_left _ hmem
    · apply List.mem_append_right
      apply List.mem_map_of_mem
      exact List.mem_filter.mpr ⟨hr, by simpa using hmem⟩
  · exact List.filter_sublist R
  · intro r
    simp [dedup, List.mem_filter]

/-- C2 fails on the code: a raw record whose timestamp is present and
whose temperature is present but whose humidity is absent is dropped
(`if temp is None or humid is None: continue`), while the claim says a
record with exactly one of the two absent appears in the normalized
output. -/
theorem c2_counterexample :
    prepare_data
        { time := ["2024-01-01T10:00"]
          temperature_2m := [some 20]
          relative_humidity_2m := [none]
          visibility := [some 1000]
          weathercode := [some 2]
          precipitation := [some 0] }
        [] "2024-01-01 12:00:00" = some []
    ∧ getOpt [some (20 : Int)] 0 = some 20
    ∧ getOpt ([none] : List (Option Int)) 0 = none := by
  refine ⟨?_, rfl, rfl⟩
  decide

/-- C2 amended: a row is dropped whenever temperature OR humidity is
absent at its index (so a record with both absent never appears, and
neither does one with exactly one absent); a row is kept exactly when
its timestamp is not already known and both critical fields are
present. -/
theorem c2_amended_row_kept_iff (h : Hourly) (E : List String) (now : String) (i : Nat) :
    ((getOpt h.temperature_2m i = none ∨ getOpt h.relative_humidity_2m i = none) →
      rowAt h E now i = none)
    ∧ (∀ t hu, getOpt h.temperature_2m i = some t →
        getOpt h.relative_humidity_2m i = some hu →
        (h.time.get? i).getD "" ∉ E →
        rowAt h E now i = some
          { timestamp := (h.time.get? i).getD ""
            temperature_2m := t
            relative_humidity_2m := hu
            visibility := (getOpt h.visibility i).getD 24000
            weathercode := (getOpt h.weathercode i).getD 0
            precipitation := (getOpt h.precipitation i).getD 0
            fetched_at := now }) := by
  refine ⟨rowAt_eq_none_of_absent, ?_⟩
  intro t hu ht hh hmem
  exact rowAt_eq_some.mpr ⟨hmem, t, hu, ht, hh, rfl⟩

theorem c2_amended_witness :
    rowAt
        { time := ["A", "B"]
          temperature_2m := [some 20, some 21]
          relative_humidity_2m := [none, some 55]
          visibility := [none, none]
          weathercode := [none, none]
          precipitation := [none, none] }
        [] "f" 0 = none
    ∧ rowAt
        { time := ["A", "B"]
          temperature_2m := [some 20, some 21]
          relative_humidity_2m := [none, some 55]
          visibility := [none, none]
          weathercode := [none, none]
          precipitation := [none, none] }
        [] "f" 1 = some
          { timestamp := "B", temperature_2m := 21, relative_humidity_2m := 55
            visibility := 24000, weathercode := 0, precipitation := 0
            fetched_at := "f" } := by
  constructor
  · exact (c2_amended_row_kept_iff _ [] "f" 0).1 (Or.inr rfl)
  · exact (c2_amended_row_kept_iff _ [] "f" 1).2 21 55 rfl rfl (by decide)

/-- C7: on a non-empty time array normalization always succeeds, walks
the time array's length (never more rows than times, every kept row's
timestamp coming from the time array), and a field array shorter than
the time array acts as absent at out-of-range indices: a short
temperature array drops those rows, a short visibility array defaults
them, with no index error anywhere. -/
theorem c7_normalization_total (h : Hourly) (E : List String) (now : String)
    (hne : h.time ≠ []) :
    ∃ rows, prepare_data h E now = some rows
      ∧ rows.length ≤ h.time.length
      ∧ (∀ r ∈ rows, r.timestamp ∈ h.time)
      ∧ (∀ i, h.temperature_2m.length ≤ i → rowAt h E now i = none)
      ∧ (∀ i r, h.visibility.length ≤ i → rowAt h E now i = some r →
          r.visibility = 24000) := by
  refine ⟨_, prepare_data_eq hne, ?_, ?_, ?_, ?_⟩
  · calc ((List.range h.time.length).filterMap (rowAt h E now)).length
        ≤ (List.range h.time.length).length := List.length_filterMap_le _ _
      _ = h.time.length := List.length_range _
  · intro r hr
    obtain ⟨i, hi, hrow⟩ := List.mem_filterMap.mp hr
    have hi' := List.mem_range.mp hi
    obtain ⟨-, t, hu, -, -, hreq⟩ := rowAt_eq_some.mp hrow
    rcases hts : h.time.get? i with _ | ts
    · exact absurd (List.get?_eq_none.mp hts) (by omega)
    · rw [hreq]
      simp only [hts, Option.getD_some]
      exact List.get?_mem hts
  · intro i hi
    apply rowAt_eq_none_of_absent
    left
    unfold getOpt
    rw [List.get?_eq_none.mpr hi]
    rfl
  · intro i r hvis hrow
    obtain ⟨-, t, hu, -, -, hreq⟩ := rowAt_eq_some.mp hrow
    rw [hreq]
    show (getOpt h.visibility i).getD 24000 = 24000
    unfold getOpt
    rw [List.get?_eq_none.mpr hvis]
    rfl

theorem c7_normalization_total_witness :
    ({ time := ["a", "b", "c"]
       temperature_2m := [some 1, some 2]
       relative_humidity_2m := [some 3, some 4, some 5]
       visibility := [some 9]
       weathercode := []
       precipitation := [] } : Hourly).time ≠ []
    ∧ ∃ rows,
      prepare_data
          { time := ["a", "b", "c"]
            temperature_2m := [some 1, some 2]
            relative_humidity_2m := [some 3, some 4, some 5]
            visibility := [some 9]
            weathercode := []
            precipitation := [] } [] "f" = some rows
      ∧ rows.length ≤ 3
      ∧ (∀ r ∈ rows, r.timestamp ∈ ["a", "b", "c"])
      ∧ (∀ i, 2 ≤ i →
          rowAt
            { time := ["a", "b", "c"]
              temperature_2m := [some 1, some 2]
              relative_humidity_2m := [some 3, some 4, some 5]
              visibility := [some 9]
              weathercode := []
              precipitation := [] } [] "f" i = none)
      ∧ (∀ i r, 1 ≤ i →
          rowAt
            { time := ["a", "b", "c"]
              temperature_2m := [some 1, some 2]
              relative_humidity_2m := [some 3, some 4, some 5]
              visibility := [some 9]
              weathercode := []
              precipitation := [] } [] "f" i = some r →
          r.visibility = 24000) :=
  ⟨by decide, c7_normalization_total _ [] "f" (by decide)⟩

/-- C8: every kept row substitutes the documented defaults for the
optional fields when they are absent at its index (visibility 24000,
weather code 0, precipitation 0), and every emitted row comes from
some index of the time array (so all six data fields are defined on
every row that reaches the sink). -/
theorem c8_default_substitution (h : Hourly) (E : List String) (now : String) :
    (∀ i r, rowAt h E now i = some r →
      (getOpt h.visibility i = none → r.visibility = 24000)
      ∧ (getOpt h.weathercode i = none → r.weathercode = 0)
      ∧ (getOpt h.precipitation i = none → r.precipitation = 0))
    ∧ (∀ rows, prepare_data h E now = some rows →
        ∀ r ∈ rows, ∃ i, i < h.time.length ∧ rowAt h E now i = some r) := by
  constructor
  · intro i r hrow
    obtain ⟨-, t, hu, -, -, hreq⟩ := rowAt_eq_some.mp hrow
    refine ⟨?_, ?_, ?_⟩ <;> intro habs <;> rw [hreq]
    · show (getOpt h.visibility i).getD 24000 = 24000
      rw [habs]; rfl
    · show (getOpt h.weathercode i).getD 0 = 0
      rw [habs]; rfl
    · show (getOpt h.precipitation i).getD 0 = 0
      rw [habs]; rfl
  · intro rows hp r hr
    by_cases hne : h.time = []
    · rw [prepare_data, if_pos hne] at hp
      exact absurd hp (by simp)
    · rw [prepare_data_eq hne] at hp
      injection hp with hp
      rw [← hp] at hr
      obtain ⟨i, hi, hrow⟩ := List.mem_filterMap.mp hr
      exact ⟨i, List.mem_range.mp hi, hrow⟩

theorem c8_default_substitution_witness :
    ∃ r, rowAt
        { time := ["a"]
          temperature_2m := [some 21]
          relative_humidity_2m := [some 55]
          visibility := []
          weathercode := [none]
          precipitation := [none] } [] "f" 0 = some r
      ∧ r.visibility = 24000 ∧ r.weathercode = 0 ∧ r.precipitation = 0 := by
  have hmain := (c8_default_substitution
      { time := ["a"]
        temperature_2m := [some 21]
        relative_humidity_2m := [some 55]
        visibility := []
        weathercode := [none]
        precipitation := [none] } [] "f").1 0
      { timestamp := "a", temperature_2m := 21, relative_humidity_2m := 55
        visibility := 24000, weathercode := 0, precipitation := 0
        fetched_at := "f" } (by decide)
  exact ⟨_, by decide, hmain.1 rfl, hmain.2.1 rfl, hmain.2.2 rfl⟩

/-- C4 fails on the code: a 4xx status raises through
`response.raise_for_status()` as a `requests.exceptions.RequestException`,
so it is retried like a transient failure.  With every attempt
answering 404, the fetch makes all 3 attempts and sleeps twice
(1s then 2s) instead of failing immediately with no retry and no
sleep. -/
theorem c4_counterexample :
    classify (HttpOutcome.response 404 { hourly := none }) = AttemptRes.reqErr
    ∧ fetch_weather_data (fun _ => HttpOutcome.response 404 { hourly := none })
        = (none, 3, [1, 2]) := by
  constructor
  · rfl
  · rfl

/-- C4 amended: transient network failures and HTTP error statuses
(4xx and 5xx alike, via `raise_for_status`) are retried up to 3
attempts with exponential backoff sleeps `2 ^ attempt`; only a
structurally invalid body (missing hourly section or empty time array)
fails immediately on the attempt where it occurs, with no further
attempt and no backoff sleep. -/
theorem c4_amended_retry_policy (outcome : Nat → HttpOutcome) (h : Hourly) :
    ((∀ i, i < 3 → classify (outcome i) = AttemptRes.reqErr) →
      fetch_weather_data outcome = (none, 3, [1, 2]))
    ∧ (classify (outcome 0) = AttemptRes.valErr →
      fetch_weather_data outcome = (none, 1, []))
    ∧ (classify (outcome 0) = AttemptRes.success h →
      fetch_weather_data outcome = (some h, 1, []))
    ∧ (classify (outcome 0) = AttemptRes.reqErr →
      classify (outcome 1) = AttemptRes.valErr →
      fetch_weather_data outcome = (none, 2, [1]))
    ∧ (classify (outcome 0) = AttemptRes.reqErr →
      classify (outcome 1) = AttemptRes.success h →
      fetch_weather_data outcome = (some h, 2, [1]))
    ∧ (classify (outcome 0) = AttemptRes.reqErr →
      classify (outcome 1) = AttemptRes.reqErr →
      classify (outcome 2) = AttemptRes.success h →
      fetch_weather_data outcome = (some h, 3, [1, 2])) := by
  refine ⟨?_, ?_, ?_, ?_, ?_, ?_⟩
  · intro hall
    have h0 := hall 0 (by omega)
    have h1 := hall 1 (by omega)
    have h2 := hall 2 (by omega)
    simp [fetch_weather_data, fetchGo, h0, h1, h2]
  · intro h0
    simp [fetch_weather_data, fetchGo, h0]
  · intro h0
    simp [fetch_weather_data, fetchGo, h0]
  · intro h0 h1
    simp [fetch_weather_data, fetchGo, h0, h1]
  · intro h0 h1
    simp [fetch_weather_data, fetchGo, h0, h1]
  · intro h0 h1 h2
    simp [fetch_weather_data, fetchGo, h0, h1, h2]

theorem c4_amended_retry_policy_witness :
    fetch_weather_data (fun _ => HttpOutcome.timeout) = (none, 3, [1, 2])
    ∧ fetch_weather_data
        (fun _ => HttpOutcome.response 200 { hourly := some emptyHourly })
        = (none, 1, [])
    ∧ fetch_weather_data
        (fun i => if i = 0 then HttpOutcome.connError
          else HttpOutcome.response 200 { hourly := some oneHourly })
        = (some oneHourly, 2, [1]) := by
  refine ⟨?_, ?_, ?_⟩
  · exact (c4_amended_retry_policy (fun _ => HttpOutcome.timeout) emptyHourly).1
      (fun i _ => rfl)
  · exact (c4_amended_retry_policy
      (fun _ => HttpOutcome.response 200 { hourly := some emptyHourly })
      emptyHourly).2.1 rfl
  · exact (c4_amended_retry_policy
      (fun i => if i = 0 then HttpOutcome.connError
        else HttpOutcome.response 200 { hourly := some oneHourly })
      oneHourly).2.2.2.2.1 rfl rfl

/-- C6: a first-run state selects the archive endpoint with the
historical window `[today - 7, today - 1]` — 7 complete days ending
yesterday, today excluded — and a non-first-run state selects the
forward-looking forecast endpoint with a 2-day horizon, not a
historical range. -/
theorem c6_run_mode_selection (s : RunState) (today : Int) :
    (s.first_run = true →
      requestWindow s today = .historical (today - 7) (today - 1)
      ∧ endpointFor (requestWindow s today)
          = "https://archive-api.open-meteo.com/v1/archive"
      ∧ (today - 1) - (today - 7) + 1 = 7
      ∧ today - 1 < today)
    ∧ (s.first_run = false →
      requestWindow s today = .forecast 2
      ∧ endpointFor (requestWindow s today)
          = "https://api.open-meteo.com/v1/forecast") := by
  constructor
  · intro hfr
    have hw : requestWindow s today = .historical (today - 7) (today - 1) := by
      unfold requestWindow run_initial_load_window
      rw [hfr]
      simp only [if_true]
      congr 1
      omega
    refine ⟨hw, ?_, by omega, by omega⟩
    rw [hw]
    rfl
  · intro hfr
    have hw : requestWindow s today = .forecast 2 := by
      unfold requestWindow
      rw [hfr]
      rfl
    refine ⟨hw, ?_⟩
    rw [hw]
    rfl

theorem c6_run_mode_selection_witness :
    (defaultState.first_run = true
      ∧ requestWindow defaultState 100 = .historical 93 99
      ∧ endpointFor (requestWindow defaultState 100)
          = "https://archive-api.open-meteo.com/v1/archive")
    ∧ (({ last_run := some "t", first_run := false } : RunState).first_run = false
      ∧ requestWindow { last_run := some "t", first_run := false } 100 = .forecast 2
      ∧ endpointFor (requestWindow { last_run := some "t", first_run := false } 100)
          = "https://api.open-meteo.com/v1/forecast") := by
  constructor
  · have hmain := (c6_run_mode_selection defaultState 100).1 rfl
    exact ⟨rfl, by rw [hmain.1]; norm_num, hmain.2.1⟩
  · have hmain := (c6_run_mode_selection
      { last_run := some "t", first_run := false } 100).2 rfl
    exact ⟨rfl, hmain.1, hmain.2⟩

/-! ## Helper lemmas about the orchestrator and the sink writer -/

lemma run_spec (env : Env) :
    run env =
      if env.setupOk = false then (false, env.stateFile, env.sheet)
      else if runBody env = true then
        (true, save_state (!env.saveFault) env.stateFile
          { last_run := some env.now, first_run := false }, runSheet env)
      else (false, env.stateFile, runSheet env) := by
  simp only [run, runBody, runSheet]
  by_cases h1 : env.setupOk = false
  · simp [h1]
  · by_cases h2 : (load_state env.stateFile).first_run = true
    · simp [h1, h2]
    · have hfr : (load_state env.stateFile).first_run = false := by
        revert h2
        cases (load_state env.stateFile).first_run <;> simp
      simp [h1, hfr]

lemma run_fst (env : Env) (hok : env.setupOk = true) :
    (run env).1 = runBody env := by
  rw [run_spec, if_neg (by rw [hok]; simp)]
  cases hb : runBody env <;> simp

lemma run_initial_load_eq (env : Env) (data : Hourly)
    (hfd : env.fetchResult = some data) :
    run_initial_load env =
      match prepare_data data (get_existing_timestamps env.sheet env.readFault)
          env.now with
      | none => (true, env.sheet)
      | some [] => (true, env.sheet)
      | some rows => upload_to_sheets rows env.sheet env.uploadFault := by
  unfold run_initial_load
  rw [hfd]

lemma run_incremental_update_eq (env : Env) (data : Hourly)
    (hfd : env.fetchResult = some data) :
    run_incremental_update env =
      match prepare_data data (get_existing_timestamps env.sheet env.readFault)
          env.now with
      | none => (true, env.sheet)
      | some rows => upload_to_sheets rows env.sheet env.uploadFault := by
  unfold run_incremental_update
  rw [hfd]

lemma run_success_eq (env : Env) (data : Hourly)
    (hok : env.setupOk = true) (hfd : env.fetchResult = some data) :
    (run env).1 =
      (match prepare_data data (get_existing_timestamps env.sheet env.readFault)
          env.now with
       | none => true
       | some rows => (upload_to_sheets rows env.sheet env.uploadFault).1) := by
  rw [run_fst env hok]
  unfold runBody
  by_cases h2 : (load_state env.stateFile).first_run = true
  · rw [if_pos h2, run_initial_load_eq env data hfd]
    rcases hp : prepare_data data (get_existing_timestamps env.sheet env.readFault)
        env.now with _ | rows
    · rfl
    · rcases rows with _ | ⟨r, rs⟩
      · rfl
      · rfl
  · rw [if_neg h2, run_incremental_update_eq env data hfd]
    rcases hp : prepare_data data (get_existing_timestamps env.sheet env.readFault)
        env.now with _ | rows
    · rfl
    · rfl

lemma run_fetch_none (env : Env) (hok : env.setupOk = true)
    (hfn : env.fetchResult = none) : (run env).1 = false := by
  rw [run_fst env hok]
  unfold runBody run_initial_load run_incremental_update
  rw [hfn]
  by_cases h2 : (load_state env.stateFile).first_run = true
  · rw [if_pos h2]
  · rw [if_neg h2]

lemma run_failed_state (env : Env) (hf : (run env).1 = false) :
    (run env).2.1 = env.stateFile := by
  rw [run_spec] at hf ⊢
  by_cases h1 : env.setupOk = false
  · rw [if_pos h1]
  · rw [if_neg h1] at hf ⊢
    revert hf
    cases hb : runBody env
    · intro hf
      rfl
    · intro hf
      exact absurd hf (by simp)

lemma run_changed_state (env : Env) (hch : (run env).2.1 ≠ env.stateFile) :
    (run env).1 = true
    ∧ (run env).2.1 = .good { last_run := some env.now, first_run := false }
    ∧ env.saveFault = false := by
  rw [run_spec] at hch ⊢
  by_cases h1 : env.setupOk = false
  · rw [if_pos h1] at hch
    exact absurd rfl hch
  · rw [if_neg h1] at hch ⊢
    revert hch
    cases hb : runBody env
    · intro hch
      exact absurd rfl hch
    · cases hsv : env.saveFault
      · intro hch
        exact ⟨by simp, by simp [save_state], rfl⟩
      · intro hch
        exfalso
        apply hch
        simp [save_state]

lemma appendLoop_fault_false (batches : List (List Row)) (k : Nat) (sheet : Sheet)
    (hk : k < batches.length) : (appendLoop batches (some k) sheet).1 = false := by
  induction batches generalizing k sheet with
  | nil => simp at hk
  | cons b bs ih =>
    rcases k with _ | k
    · rfl
    · exact ih k _ (by simpa using hk)

lemma appendLoop_head (batches : List (List Row)) (fault : Option Nat)
    (a : List String) (s : Sheet) :
    ((appendLoop batches fault (a :: s)).2).head? = some a := by
  induction batches generalizing fault s with
  | nil => rfl
  | cons b bs ih =>
    rcases fault with _ | k
    · show ((appendLoop bs none ((a :: s) ++ b.map rowCells)).2).head? = some a
      rw [List.cons_append]
      exact ih none _
    · rcases k with _ | k
      · rfl
      · show ((appendLoop bs (some k) ((a :: s) ++ b.map rowCells)).2).head? = some a
        rw [List.cons_append]
        exact ih (some k) _

/-- C3: a run that fails (setup failure, fetch returning nothing, or a
write failure — including a later batch failing after earlier batches
succeeded, which makes `upload_to_sheets` report failure) leaves the
persisted state file exactly as it was; whenever the state file does
change, the run reported success and the new record is
`{firstRun := false, lastRun := now}`. -/
theorem c3_state_advance_only_on_success (env : Env) :
    ((run env).1 = false → (run env).2.1 = env.stateFile)
    ∧ (env.setupOk = true → env.fetchResult = none → (run env).1 = false)
    ∧ (∀ rows sheet k, rows ≠ [] → k < (chunksOf 100 rows).length →
        (upload_to_sheets rows sheet (some k)).1 = false)
    ∧ (∀ data, env.setupOk = true → env.fetchResult = some data →
        (run env).1 =
          (match prepare_data data (get_existing_timestamps env.sheet env.readFault)
              env.now with
           | none => true
           | some rows => (upload_to_sheets rows env.sheet env.uploadFault).1))
    ∧ ((run env).2.1 ≠ env.stateFile →
        (run env).1 = true
        ∧ (run env).2.1 = .good { last_run := some env.now, first_run := false }) := by
  refine ⟨run_failed_state env, fun hok hfn => run_fetch_none env hok hfn, ?_,
    fun data hok hfd => run_success_eq env data hok hfd,
    fun hch => ⟨(run_changed_state env hch).1, (run_changed_state env hch).2.1⟩⟩
  intro rows sheet k hne hk
  unfold upload_to_sheets
  rw [if_neg hne]
  exact appendLoop_fault_false _ k _ hk

theorem c3_state_advance_only_on_success_witness :
    (run { stateFile := .good { last_run := some "p", first_run := false }, sheet := [], setupOk := true, fetchResult := none, readFault := false, uploadFault := none, saveFault := false, now := "n" }).1 = false
    ∧ (run { stateFile := .good { last_run := some "p", first_run := false }, sheet := [], setupOk := true, fetchResult := none, readFault := false, uploadFault := none, saveFault := false, now := "n" }).2.1
        = .good { last_run := some "p", first_run := false }
    ∧ (upload_to_sheets [{ timestamp := "t", temperature_2m := 1, relative_humidity_2m := 2, visibility := 3, weathercode := 4, precipitation := 5, fetched_at := "f" }] [] (some 0)).1 = false := by
  have h := c3_state_advance_only_on_success
    { stateFile := .good { last_run := some "p", first_run := false }, sheet := [], setupOk := true, fetchResult := none, readFault := false, uploadFault := none, saveFault := false, now := "n" }
  have hf := h.2.1 rfl rfl
  refine ⟨hf, h.1 hf, ?_⟩
  exact h.2.2.1
    [{ timestamp := "t", temperature_2m := 1, relative_humidity_2m := 2, visibility := 3, weathercode := 4, precipitation := 5, fetched_at := "f" }]
    [] 0 (by simp) (by decide)

/-- C5 fails on the code: an error while reading the existing
timestamps from the destination table is caught inside
`get_existing_timestamps`, which returns the empty set, and the run
proceeds and reports overall success — the error is silently
discarded, not turned into a failed run as the claim requires. -/
theorem c5_counterexample :
    ({ stateFile := .absent, sheet := [["Time"], ["T0"]], setupOk := true, fetchResult := some { time := ["T1"], temperature_2m := [some 20], relative_humidity_2m := [some 50], visibility := [none], weathercode := [none], precipitation := [none] }, readFault := true, uploadFault := none, saveFault := false, now := "N" } : Env).readFault = true
    ∧ (run { stateFile := .absent, sheet := [["Time"], ["T0"]], setupOk := true, fetchResult := some { time := ["T1"], temperature_2m := [some 20], relative_humidity_2m := [some 50], visibility := [none], weathercode := [none], precipitation := [none] }, readFault := true, uploadFault := none, saveFault := false, now := "N" }).1 = true := by
  exact ⟨rfl, by decide⟩

/-- C5 amended: a corrupt state file and a failed existing-timestamp
read are the errors recovered silently (default state, empty set); a
normalization error is also absorbed as "no new data" and the run
still succeeds; only setup failure and a fetch returning nothing make
the run fail at those stages. -/
theorem c5_amended_error_policy (env : Env) (data : Hourly) (sheet : Sheet) :
    get_existing_timestamps sheet true = []
    ∧ load_state .corrupt = defaultState
    ∧ (env.setupOk = false → (run env).1 = false)
    ∧ (env.setupOk = true → env.fetchResult = none → (run env).1 = false)
    ∧ (env.setupOk = true → env.fetchResult = some data → data.time = [] →
        (run env).1 = true) := by
  refine ⟨rfl, rfl, ?_, fun hok hfn => run_fetch_none env hok hfn, ?_⟩
  · intro hbad
    rw [run_spec, if_pos hbad]
  · intro hok hfd htime
    rw [run_success_eq env data hok hfd]
    have hp : prepare_data data (get_existing_timestamps env.sheet env.readFault)
        env.now = none := by
      unfold prepare_data
      rw [if_pos htime]
    rw [hp]

theorem c5_amended_error_policy_witness :
    (run { stateFile := .absent, sheet := [], setupOk := true, fetchResult := none, readFault := false, uploadFault := none, saveFault := false, now := "n" }).1 = false
    ∧ (run { stateFile := .absent, sheet := [], setupOk := true, fetchResult := some emptyHourly, readFault := false, uploadFault := none, saveFault := false, now := "n" }).1 = true
    ∧ (run { stateFile := .absent, sheet := [], setupOk := false, fetchResult := none, readFault := false, uploadFault := none, saveFault := false, now := "n" }).1 = false := by
  refine ⟨?_, ?_, ?_⟩
  · exact (c5_amended_error_policy _ emptyHourly []).2.2.2.1 rfl rfl
  · exact (c5_amended_error_policy _ emptyHourly []).2.2.2.2 rfl rfl rfl
  · exact (c5_amended_error_policy
      { stateFile := .absent, sheet := [], setupOk := false, fetchResult := none, readFault := false, uploadFault := none, saveFault := false, now := "n" }
      emptyHourly []).2.2.1 rfl

/-- C9: uploading an empty batch reports success and leaves the table
untouched (no header, no rows), and whenever a non-empty batch is
uploaded into an empty table the header row is the first row written,
in the same call. -/
theorem c9_empty_upload_noop (sheet : Sheet) (fault : Option Nat) (rows : List Row) :
    upload_to_sheets [] sheet fault = (true, sheet)
    ∧ (rows ≠ [] → ((upload_to_sheets rows [] fault).2).head? = some headers) := by
  constructor
  · rfl
  · intro hne
    have h1 : upload_to_sheets rows [] fault =
        appendLoop (chunksOf 100 rows) fault [headers] := by
      unfold upload_to_sheets
      rw [if_neg hne]
      rfl
    rw [h1]
    exact appendLoop_head _ fault headers []

theorem c9_empty_upload_noop_witness :
    upload_to_sheets [] [["x"]] (some 0) = (true, [["x"]])
    ∧ ((upload_to_sheets [{ timestamp := "t", temperature_2m := 1, relative_humidity_2m := 2, visibility := 3, weathercode := 4, precipitation := 5, fetched_at := "f" }] [] none).2).head? = some headers := by
  constructor
  · exact (c9_empty_upload_noop [["x"]] (some 0) []).1
  · exact (c9_empty_upload_noop [] none
      [{ timestamp := "t", temperature_2m := 1, relative_humidity_2m := 2, visibility := 3, weathercode := 4, precipitation := 5, fetched_at := "f" }]).2
      (by simp)

/-- C10 fails on the code: `open(self.state_file, 'w')` truncates the
file as soon as it succeeds, so a write that fails during `json.dump`
leaves a truncated, unreadable file — not the previous value — and
the next invocation's `load_state` falls back to the default
first-run state, a different mode than the incremental mode the
previous record selected. -/
theorem c10_counterexample :
    save_state_disk WriteAttempt.dumpRaises
        (StateFile.good { last_run := some "p", first_run := false })
        { last_run := some "n", first_run := false } = StateFile.corrupt
    ∧ StateFile.corrupt ≠
        StateFile.good { last_run := some "p", first_run := false }
    ∧ (load_state StateFile.corrupt).first_run = true
    ∧ (load_state
        (StateFile.good { last_run := some "p", first_run := false })).first_run
        = false := by
  exact ⟨rfl, by decide, rfl, rfl⟩

/-- C10 amended: a failed state-file write is swallowed — `save_state`
catches every write error without propagating it, and the run reports
exactly the success it would have reported with a working write.  But
the on-disk outcome depends on where the write failed: if `open`
itself raises, the file keeps its previous value and the next
invocation loads the same state (same mode); if the dump fails after
`open` truncated the file, the file is left unreadable and the next
invocation falls back to the default first-run state (backfill mode).
Either way the dedup filter absorbs the repeated fetch. -/
theorem c10_amended_save_failure (env : Env) (f : StateFile) (s : RunState) :
    save_state_disk WriteAttempt.completes f s = .good s
    ∧ save_state_disk WriteAttempt.openRaises f s = f
    ∧ save_state_disk WriteAttempt.dumpRaises f s = .corrupt
    ∧ load_state (save_state_disk WriteAttempt.openRaises f s) = load_state f
    ∧ load_state (save_state_disk WriteAttempt.dumpRaises f s) = defaultState
    ∧ defaultState.first_run = true
    ∧ (run { env with saveFault := true }).1 = (run { env with saveFault := false }).1
    ∧ (run { env with saveFault := true }).2.1 = env.stateFile := by
  obtain ⟨sf, sh, ok, fr, rf, uf, sv, now⟩ := env
  have h2 : (run ⟨sf, sh, ok, fr, rf, uf, true, now⟩).2.1 = sf := by
    rw [run_spec]
    split_ifs <;> rfl
  have hb : runBody ⟨sf, sh, ok, fr, rf, uf, true, now⟩
      = runBody ⟨sf, sh, ok, fr, rf, uf, false, now⟩ := rfl
  refine ⟨rfl, rfl, rfl, rfl, rfl, rfl, ?_, h2⟩
  by_cases h1 : ok = false
  · have e1 : run ⟨sf, sh, ok, fr, rf, uf, true, now⟩ = (false, sf, sh) := by
      rw [run_spec, if_pos h1]
    have e0 : run ⟨sf, sh, ok, fr, rf, uf, false, now⟩ = (false, sf, sh) := by
      rw [run_spec, if_pos h1]
    rw [e1, e0]
  · have hok : ok = true := by
      revert h1
      cases ok <;> simp
    rw [run_fst _ hok, run_fst _ hok, hb]

end WeatherETL
